import Mathlib

/-!
Shallow embedding of the GIS-GITA/UTS-BE service (Go, package `api` in
`src/unnamed/part_001`, entry point `src/main.go`).

The service is a CRUD HTTP handler over a MongoDB collection of GeoJSON
`LocationFeature` documents.  We embed:

* the data model (`Geometry`, `Properties`, `LocationFeature`,
  `FeatureCollection`) with Go slice nil-ness made explicit where it is
  observable in JSON output;
* the document store (`Store`) with the Mongo operations the handlers use
  (`InsertOne` with `bson:"_id,omitempty"` marshalling, `Find`,
  `UpdateOne` with a `$set` on `properties`/`geometry`, `DeleteOne`);
* the HTTP layer: a header map with `Header().Set` semantics, the
  `http.Error` helper of Go's `net/http`, the four resource handlers
  `createLocation`, `getLocations`, `updateLocation`, `deleteLocation`,
  and `corsMiddleware`.

Store-level failures (network errors, timeouts -> HTTP 500) are outside the
embedding: every store operation here is the operation's success behaviour.
-/

set_option autoImplicit false

namespace Api

/-- `primitive.ObjectID`, modelled as a natural number below `16^24`.
`0` is the zero ObjectID (`primitive.NilObjectID`), the Go zero value a
decoded `LocationFeature` carries when the payload omits `id`. -/
abbrev ObjectID := Nat

/-- Go struct `Geometry` (part_001 lines 21-24): GeoJSON geometry with a
`type` string and float64 coordinates. -/
structure Geometry where
  type : String
  coordinates : List Float

/-- Go struct `Properties` (part_001 lines 26-29). -/
structure Properties where
  name : String
  description : String
deriving DecidableEq

/-- Go struct `LocationFeature` (part_001 lines 31-36).  The `id` field has
bson tag `_id,omitempty` and json tag `id`. -/
structure LocationFeature where
  id : ObjectID
  type : String
  properties : Properties
  geometry : Geometry

/-- Go struct `FeatureCollection` (part_001 lines 38-41).  `Features` is a
Go slice `[]LocationFeature`; a Go slice is either nil (`none`) or a
(possibly empty) sequence (`some l`), and the difference is observable in
its JSON encoding (`null` vs `[...]`). -/
structure FeatureCollection where
  type : String
  features : Option (List LocationFeature)

/-! ## The document store

The `locations` collection, as the handlers use it.  `docs` is the
collection contents in natural order; `nextId` is the state of the
ObjectID generator used when an insert omits `_id`. -/

structure Store where
  docs : List LocationFeature
  nextId : ObjectID

/-- `collection.InsertOne ctx feature`.  The driver marshals the record with
`bson:"_id,omitempty"`: a zero `id` is omitted and the store generates a
fresh `_id`; a nonzero `id` is marshalled and stored as the record's `_id`.
Returns the `InsertedID` and the new store state. -/
def Store.insertOne (s : Store) (f : LocationFeature) : ObjectID × Store :=
  if f.id = 0 then
    (s.nextId, ⟨s.docs ++ [{ f with id := s.nextId }], s.nextId + 1⟩)
  else
    (f.id, ⟨s.docs ++ [f], s.nextId⟩)

/-- `collection.Find ctx bson.M\x7b\x7d`: all documents, natural order. -/
def Store.findAll (s : Store) : List LocationFeature :=
  s.docs

/-- The effect of the update document
`bson.M "$set" (properties, geometry)` on one matched record
(part_001 lines 161-166): both fields are replaced whole. -/
def applySet (p : Properties) (g : Geometry) (d : LocationFeature) : LocationFeature :=
  { d with properties := p, geometry := g }

/-- `UpdateOne` over the document list: applies the `$set` to the first
document whose `_id` matches, returning the `MatchedCount` and the new
list. -/
def updateFirst (id : ObjectID) (p : Properties) (g : Geometry) :
    List LocationFeature → Nat × List LocationFeature
  | [] => (0, [])
  | d :: ds =>
    if d.id = id then
      (1, applySet p g d :: ds)
    else
      let r := updateFirst id p g ds
      (r.1, d :: r.2)

/-- `collection.UpdateOne ctx (bson.M "_id" id) update`. -/
def Store.updateOne (s : Store) (id : ObjectID) (p : Properties) (g : Geometry) :
    Nat × Store :=
  let r := updateFirst id p g s.docs
  (r.1, ⟨r.2, s.nextId⟩)

/-- `DeleteOne` over the document list: removes the first document whose
`_id` matches, returning the `DeletedCount` and the new list. -/
def deleteFirst (id : ObjectID) : List LocationFeature → Nat × List LocationFeature
  | [] => (0, [])
  | d :: ds =>
    if d.id = id then
      (1, ds)
    else
      let r := deleteFirst id ds
      (r.1, d :: r.2)

/-- `collection.DeleteOne ctx (bson.M "_id" id)`. -/
def Store.deleteOne (s : Store) (id : ObjectID) : Nat × Store :=
  let r := deleteFirst id s.docs
  (r.1, ⟨r.2, s.nextId⟩)

/-! ## JSON values and the encodings `json.NewEncoder(w).Encode` produces -/

/-- JSON value AST, as far as this service's responses need it. -/
inductive Json where
  | null
  | str (s : String)
  | num (x : Float)
  | arr (elems : List Json)
  | obj (fields : List (String × Json))

/-- Look up a field of a JSON object (first occurrence). -/
def Json.objField : Json → String → Option Json
  | .obj fields, k => (fields.find? (fun p => p.1 == k)).map (·.2)
  | _, _ => none

/-- One hex digit, lowercase, as `encoding/hex` produces. -/
def hexDigit (n : Nat) : Char :=
  if n < 10 then Char.ofNat (48 + n) else Char.ofNat (87 + n)

/-- `primitive.ObjectID.Hex()`: the id as a 24-digit lowercase hex string,
most significant digit first.  `ObjectID.MarshalJSON` encodes the id as
this string. -/
def oidHex (id : ObjectID) : String :=
  String.mk ((List.range 24).map (fun i => hexDigit (id / 16 ^ (23 - i) % 16)))

/-- Numeric value of one hex digit; `encoding/hex` accepts both cases. -/
def hexVal? (c : Char) : Option Nat :=
  if 48 ≤ c.toNat ∧ c.toNat ≤ 57 then some (c.toNat - 48)
  else if 97 ≤ c.toNat ∧ c.toNat ≤ 102 then some (c.toNat - 87)
  else if 65 ≤ c.toNat ∧ c.toNat ≤ 70 then some (c.toNat - 55)
  else none

/-- `primitive.ObjectIDFromHex`: succeeds exactly on 24-character hex
strings, yielding the decoded id; anything else is an error (`none`). -/
def objectIDFromHex (s : String) : Option ObjectID :=
  if s.length = 24 then
    s.data.foldl (fun acc c => acc.bind (fun n => (hexVal? c).map (fun d => n * 16 + d)))
      (some 0)
  else none

/-- `encoding/json` encoding of `Geometry` (struct field order). -/
def encodeGeometry (g : Geometry) : Json :=
  .obj [("type", .str g.type), ("coordinates", .arr (g.coordinates.map .num))]

/-- `encoding/json` encoding of `Properties`. -/
def encodeProperties (p : Properties) : Json :=
  .obj [("name", .str p.name), ("description", .str p.description)]

/-- `encoding/json` encoding of `LocationFeature`: field order `id`,
`type`, `properties`, `geometry`; the ObjectID marshals as its hex
string. -/
def encodeLocationFeature (f : LocationFeature) : Json :=
  .obj [("id", .str (oidHex f.id)), ("type", .str f.type),
        ("properties", encodeProperties f.properties),
        ("geometry", encodeGeometry f.geometry)]

/-- `encoding/json` encoding of a `[]LocationFeature` slice: a nil slice
encodes as JSON `null`, a non-nil slice as an array. -/
def encodeFeatureSlice : Option (List LocationFeature) → Json
  | none => .null
  | some l => .arr (l.map encodeLocationFeature)

/-- `encoding/json` encoding of `FeatureCollection`. -/
def encodeFeatureCollection (fc : FeatureCollection) : Json :=
  .obj [("type", .str fc.type), ("features", encodeFeatureSlice fc.features)]

/-! ## HTTP layer -/

/-- Response headers as `net/http` exposes them to handlers. -/
abbrev HeaderMap := List (String × String)

/-- `w.Header().Set(k, v)`: replaces any existing value for the key. -/
def setHeader (h : HeaderMap) (k v : String) : HeaderMap :=
  (k, v) :: h.filter (fun p => p.1 ≠ k)

/-- Read a header value (the single value `Set` semantics maintain). -/
def getHeader : HeaderMap → String → Option String
  | [], _ => none
  | (k2, v) :: h, k => if k2 = k then some v else getHeader h k

/-- A response body: nothing written (`WriteHeader` only), plain text
(`http.Error`), or a JSON document (`json.NewEncoder(w).Encode`). -/
inductive Body where
  | empty
  | text (s : String)
  | json (j : Json)

/-- An HTTP response as the handlers produce it. -/
structure Response where
  status : Nat
  headers : HeaderMap
  body : Body

/-- An incoming request, after the stages outside the embedded code:
`idParam` is `mux.Vars(r)["id"]` (the empty string when the route has no
id segment), `body` is the result of `json.NewDecoder(r.Body).Decode`
into a `LocationFeature` — `Except.error e` when decoding fails with
message `e`, `Except.ok f` when it yields `f` (absent fields become Go
zero values, so an omitted `id` is the zero ObjectID). -/
structure Request where
  method : String
  idParam : String
  body : Except String LocationFeature

/-- Go's `net/http` `http.Error w msg code`: sets `Content-Type` to
`text/plain; charset=utf-8` and `X-Content-Type-Options: nosniff`,
writes the status code, and writes the message followed by a newline. -/
def httpError (h : HeaderMap) (msg : String) (code : Nat) : Response :=
  let h := setHeader h "Content-Type" "text/plain; charset=utf-8"
  let h := setHeader h "X-Content-Type-Options" "nosniff"
  ⟨code, h, .text (msg ++ "\n")⟩

/-- A handler: request, headers already set on the writer, store state →
response and new store state. -/
abbrev Handler := Request → HeaderMap → Store → Response × Store

/-- `createLocation` (part_001 lines 99-116): decode body (400 on error),
force `Type = "Feature"`, `InsertOne`, encode the insert result
(`mongo.InsertOneResult`, whose single field `InsertedID` marshals as the
new id's hex string). -/
def createLocation : Handler := fun r h0 s =>
  let h := setHeader h0 "Content-Type" "application/json"
  match r.body with
  | .error e => (httpError h e 400, s)
  | .ok feature =>
    let feature := { feature with type := "Feature" }
    let r := s.insertOne feature
    (⟨200, h, .json (.obj [("InsertedID", .str (oidHex r.1))])⟩, r.2)

/-- `getLocations` (part_001 lines 118-143): `Find` with an empty filter,
`features = make([]LocationFeature, 0)` so the slice is non-nil, then
`cursor.All` into it; wrap in a `FeatureCollection` and encode.
`cursor.All` into a non-nil empty slice leaves it non-nil when the cursor
is empty and fills it otherwise. -/
def getLocations : Handler := fun _r h0 s =>
  let h := setHeader h0 "Content-Type" "application/json"
  let features : Option (List LocationFeature) := some []
  let features := match s.findAll with
    | [] => features
    | ds => some ds
  let fc : FeatureCollection := ⟨"FeatureCollection", features⟩
  (⟨200, h, .json (encodeFeatureCollection fc)⟩, s)

/-- `updateLocation` (part_001 lines 145-173): parse the id (400 `Invalid
ID format` on failure), decode the body (400 on failure), `UpdateOne`
with a `$set` of `properties` and `geometry` filtered by `_id`, then
encode the decoded request feature back — the result of `UpdateOne`
(matched count) is discarded. -/
def updateLocation : Handler := fun r h0 s =>
  let h := setHeader h0 "Content-Type" "application/json"
  match objectIDFromHex r.idParam with
  | none => (httpError h "Invalid ID format" 400, s)
  | some id =>
    match r.body with
    | .error e => (httpError h e 400, s)
    | .ok feature =>
      let u := s.updateOne id feature.properties feature.geometry
      (⟨200, h, .json (encodeLocationFeature feature)⟩, u.2)

/-- `deleteLocation` (part_001 lines 175-195): parse the id (400 `Invalid
ID format` on failure), `DeleteOne` by `_id`; 404 `Location not found`
when `DeletedCount` is zero, otherwise encode the fixed confirmation
object. -/
def deleteLocation : Handler := fun r h0 s =>
  let h := setHeader h0 "Content-Type" "application/json"
  match objectIDFromHex r.idParam with
  | none => (httpError h "Invalid ID format" 400, s)
  | some id =>
    let d := s.deleteOne id
    if d.1 = 0 then
      (httpError h "Location not found" 404, d.2)
    else
      (⟨200, h, .json (.obj [("message", .str "Location deleted successfully")])⟩, d.2)

/-- `corsMiddleware` (part_001 lines 81-96): set the three CORS headers on
every request; on `OPTIONS` write 200 and return without calling the next
handler, otherwise delegate to it. -/
def corsMiddleware (next : Handler) : Handler := fun r h0 s =>
  let h := setHeader h0 "Access-Control-Allow-Origin" "*"
  let h := setHeader h "Access-Control-Allow-Methods" "GET, POST, PUT, DELETE, OPTIONS"
  let h := setHeader h "Access-Control-Allow-Headers" "Content-Type, Authorization, X-Requested-With"
  if r.method = "OPTIONS" then
    (⟨200, h, .empty⟩, s)
  else
    next r h s

/-- A sample decodable request feature, as in the spec scenario
(`properties = name A, description d`, point geometry), with a chosen
submitted `id` and `type`. -/
def featureEx (id : ObjectID) (ty : String) : LocationFeature :=
  ⟨id, ty, ⟨"A", "d"⟩, ⟨"Point", [1, 2]⟩⟩

/-! ## Helper lemmas -/

theorem getHeader_setHeader_self (h : HeaderMap) (k v : String) :
    getHeader (setHeader h k v) k = some v := by
  simp [getHeader, setHeader]

theorem getHeader_filter_ne (h : HeaderMap) (k k2 : String) (hne : k2 ≠ k) :
    getHeader (h.filter (fun p => p.1 ≠ k)) k2 = getHeader h k2 := by
  induction h with
  | nil => rfl
  | cons a t ih =>
    by_cases ha : a.1 = k
    · have hne2 : a.1 ≠ k2 := fun hc => hne (hc ▸ ha)
      cases a with
      | mk a1 a2 => simp_all [getHeader]
    · cases a with
      | mk a1 a2 => simp_all [getHeader]

theorem getHeader_setHeader_of_ne (h : HeaderMap) (k v k2 : String) (hne : k2 ≠ k) :
    getHeader (setHeader h k v) k2 = getHeader h k2 := by
  have hkk : k ≠ k2 := fun hc => hne hc.symm
  simp only [setHeader, getHeader, if_neg hkk]
  exact getHeader_filter_ne h k k2 hne

theorem updateFirst_of_no_match (id : ObjectID) (p : Properties) (g : Geometry)
    (l : List LocationFeature) (habs : ∀ d ∈ l, d.id ≠ id) :
    updateFirst id p g l = (0, l) := by
  induction l with
  | nil => rfl
  | cons d ds ih =>
    have hd : d.id ≠ id := habs d (by simp)
    simp only [updateFirst, if_neg hd]
    rw [ih (fun x hx => habs x (by simp [hx]))]

theorem updateFirst_first_match (id : ObjectID) (p : Properties) (g : Geometry)
    (l1 : List LocationFeature) (d : LocationFeature) (l2 : List LocationFeature)
    (hd : d.id = id) (hl1 : ∀ x ∈ l1, x.id ≠ id) :
    updateFirst id p g (l1 ++ d :: l2) = (1, l1 ++ applySet p g d :: l2) := by
  induction l1 with
  | nil => simp [updateFirst, hd]
  | cons a t ih =>
    have ha : a.id ≠ id := hl1 a (by simp)
    simp only [List.cons_append, updateFirst, if_neg ha, List.append_eq]
    rw [ih (fun x hx => hl1 x (by simp [hx]))]

theorem updateFirst_map_id_type (id : ObjectID) (p : Properties) (g : Geometry)
    (l : List LocationFeature) :
    (updateFirst id p g l).2.map (fun d => (d.id, d.type)) =
      l.map (fun d => (d.id, d.type)) := by
  induction l with
  | nil => rfl
  | cons d ds ih =>
    by_cases hd : d.id = id
    · simp [updateFirst, if_pos hd, applySet]
    · simp [updateFirst, if_neg hd, ih]

theorem deleteFirst_fst_eq_zero_iff (id : ObjectID) (l : List LocationFeature) :
    (deleteFirst id l).1 = 0 ↔ ∀ d ∈ l, d.id ≠ id := by
  induction l with
  | nil => simp [deleteFirst]
  | cons d ds ih =>
    by_cases hd : d.id = id
    · simp [deleteFirst, if_pos hd, hd]
    · simp [deleteFirst, if_neg hd, ih, hd]

theorem deleteFirst_no_match (id : ObjectID) (l : List LocationFeature)
    (hp : l.Pairwise (fun a b => a.id ≠ b.id)) :
    ∀ d ∈ (deleteFirst id l).2, d.id ≠ id := by
  induction l with
  | nil => simp [deleteFirst]
  | cons d ds ih =>
    rw [List.pairwise_cons] at hp
    by_cases hd : d.id = id
    · simp only [deleteFirst, if_pos hd]
      intro x hx hxid
      exact hp.1 x hx (hd ▸ hxid ▸ rfl)
    · simp only [deleteFirst, if_neg hd]
      intro x hx hxid
      rcases List.mem_cons.mp hx with hx | hx
      · exact hd (hx ▸ hxid)
      · exact ih hp.2 x hx hxid

/-! ## Claim theorems -/

/-- C1: for every decodable request body, whatever `type` the client
submits, the record `createLocation` inserts into the store has its type
field equal to the literal `Feature`. -/
theorem create_inserts_feature_type (m i : String) (f : LocationFeature)
    (h0 : HeaderMap) (s : Store) :
    ∃ r, ((createLocation ⟨m, i, Except.ok f⟩ h0 s).2).docs = s.docs ++ [r] ∧
      r.type = "Feature" := by
  by_cases hid : f.id = 0
  · exact ⟨{ f with type := "Feature", id := s.nextId },
      by simp [createLocation, Store.insertOne, hid], rfl⟩
  · exact ⟨{ f with type := "Feature" },
      by simp [createLocation, Store.insertOne, hid], rfl⟩

/-- C2 counterexample: a client-submitted nonzero id is NOT ignored by
Create.  Two requests that differ only in the submitted id produce
different records in the store, and each stored id is the submitted one
rather than the store-generated one (the generator stood at 100). -/
theorem create_submitted_id_not_ignored :
    ((createLocation ⟨"POST", "", Except.ok (featureEx 1 "Feature")⟩ [] ⟨[], 100⟩).2.docs.map
        (fun d => d.id) = [1]) ∧
    ((createLocation ⟨"POST", "", Except.ok (featureEx 2 "Feature")⟩ [] ⟨[], 100⟩).2.docs.map
        (fun d => d.id) = [2]) ∧
    (createLocation ⟨"POST", "", Except.ok (featureEx 1 "Feature")⟩ [] ⟨[], 100⟩).2.docs ≠
      (createLocation ⟨"POST", "", Except.ok (featureEx 2 "Feature")⟩ [] ⟨[], 100⟩).2.docs := by
  refine ⟨by decide, by decide, fun hcontra => ?_⟩
  have e1 : (createLocation ⟨"POST", "", Except.ok (featureEx 1 "Feature")⟩ []
      ⟨[], 100⟩).2.docs.map (fun d => d.id) = [1] := by decide
  have e2 : (createLocation ⟨"POST", "", Except.ok (featureEx 2 "Feature")⟩ []
      ⟨[], 100⟩).2.docs.map (fun d => d.id) = [2] := by decide
  rw [hcontra, e2] at e1
  exact absurd e1 (by decide)

/-- C2 amended: Create passes the decoded feature (with only `type`
overwritten) to the insert; because the id field is marshalled with
`omitempty`, the store generates the stored id exactly when the submitted
id is the zero ObjectID, and otherwise the submitted id becomes the
stored id. -/
theorem create_id_generated_only_when_zero (m i : String) (f : LocationFeature)
    (h0 : HeaderMap) (s : Store) :
    ((createLocation ⟨m, i, Except.ok f⟩ h0 s).2).docs =
      s.docs ++ [{ f with type := "Feature", id := ite (f.id = 0) s.nextId f.id }] := by
  by_cases hid : f.id = 0 <;> simp [createLocation, Store.insertOne, hid]

/-- C3: on an empty store, List responds 200 with exactly the JSON object
with type FeatureCollection and features an empty array (not null, not
absent), under Content-Type application/json. -/
theorem list_empty_store_returns_empty_array (r : Request) (h0 : HeaderMap) (n : ObjectID) :
    (getLocations r h0 ⟨[], n⟩).1.status = 200 ∧
    (getLocations r h0 ⟨[], n⟩).1.body =
      Body.json (.obj [("type", .str "FeatureCollection"), ("features", .arr [])]) ∧
    getHeader (getLocations r h0 ⟨[], n⟩).1.headers "Content-Type" = some "application/json" :=
  ⟨rfl, rfl, getHeader_setHeader_self h0 "Content-Type" "application/json"⟩

/-- C8: a request body that fails JSON decoding makes Create and Update
respond 400 with the store left unchanged: no store operation is
issued. -/
theorem bad_body_400_store_unchanged (m idp e : String) (h0 : HeaderMap) (s : Store) :
    (createLocation ⟨m, idp, Except.error e⟩ h0 s).1.status = 400 ∧
    (createLocation ⟨m, idp, Except.error e⟩ h0 s).2 = s ∧
    (updateLocation ⟨m, idp, Except.error e⟩ h0 s).1.status = 400 ∧
    (updateLocation ⟨m, idp, Except.error e⟩ h0 s).2 = s := by
  refine ⟨rfl, rfl, ?_, ?_⟩ <;>
    cases h : objectIDFromHex idp <;> simp [updateLocation, httpError, h]

/-- C4: with a syntactically valid id matching no stored record and a
decodable body, Update still succeeds: the store update matches zero
records, the handler responds 200 echoing the submitted feature, and the
store is unchanged (never a 404). -/
theorem update_missing_id_succeeds (m idp : String) (f : LocationFeature)
    (h0 : HeaderMap) (s : Store) (id : ObjectID)
    (hid : objectIDFromHex idp = some id)
    (habs : ∀ d ∈ s.docs, d.id ≠ id) :
    (updateLocation ⟨m, idp, Except.ok f⟩ h0 s).1.status = 200 ∧
    (updateLocation ⟨m, idp, Except.ok f⟩ h0 s).1.body =
      Body.json (encodeLocationFeature f) ∧
    (s.updateOne id f.properties f.geometry).1 = 0 ∧
    (updateLocation ⟨m, idp, Except.ok f⟩ h0 s).2 = s := by
  have hupd : updateFirst id f.properties f.geometry s.docs = (0, s.docs) :=
    updateFirst_of_no_match id f.properties f.geometry s.docs habs
  refine ⟨?_, ?_, ?_, ?_⟩ <;>
    cases s <;> simp [updateLocation, Store.updateOne, hid, hupd]

/-- C4 witness: updating id 1 on an empty store. -/
theorem update_missing_id_succeeds_witness :
    (updateLocation ⟨"PUT", "000000000000000000000001", Except.ok (featureEx 0 "X")⟩ []
        ⟨[], 5⟩).1.status = 200 ∧
    (updateLocation ⟨"PUT", "000000000000000000000001", Except.ok (featureEx 0 "X")⟩ []
        ⟨[], 5⟩).1.body = Body.json (encodeLocationFeature (featureEx 0 "X")) ∧
    (Store.updateOne ⟨[], 5⟩ 1 (featureEx 0 "X").properties (featureEx 0 "X").geometry).1 = 0 ∧
    (updateLocation ⟨"PUT", "000000000000000000000001", Except.ok (featureEx 0 "X")⟩ []
        ⟨[], 5⟩).2 = (⟨[], 5⟩ : Store) :=
  update_missing_id_succeeds "PUT" "000000000000000000000001" (featureEx 0 "X") [] ⟨[], 5⟩ 1
    (by decide) (by simp)

/-- C6: the update Update sends to the store only replaces the
`properties` and `geometry` fields of the matched record, each whole:
`applySet` (the effect of the set document) rebuilds the record with the
request body's properties and geometry and the record's own `_id` and
`type`; when no record matches, the store contents are unchanged; when a
first match exists, exactly that record is replaced by its `applySet`
image and every other record is untouched; every record keeps its `_id`
and `type` regardless of the request body. -/
theorem update_sets_only_properties_geometry (m idp : String) (f : LocationFeature)
    (h0 : HeaderMap) (s : Store) (id : ObjectID)
    (hid : objectIDFromHex idp = some id) :
    (∀ d : LocationFeature, applySet f.properties f.geometry d =
      ⟨d.id, d.type, f.properties, f.geometry⟩) ∧
    ((∀ d ∈ s.docs, d.id ≠ id) →
      ((updateLocation ⟨m, idp, Except.ok f⟩ h0 s).2).docs = s.docs) ∧
    (∀ l1 d l2, s.docs = l1 ++ d :: l2 → d.id = id → (∀ x ∈ l1, x.id ≠ id) →
      ((updateLocation ⟨m, idp, Except.ok f⟩ h0 s).2).docs =
        l1 ++ applySet f.properties f.geometry d :: l2) ∧
    ((updateLocation ⟨m, idp, Except.ok f⟩ h0 s).2).docs.map (fun d => (d.id, d.type)) =
      s.docs.map (fun d => (d.id, d.type)) := by
  have h2 : ((updateLocation ⟨m, idp, Except.ok f⟩ h0 s).2).docs =
      (updateFirst id f.properties f.geometry s.docs).2 := by
    simp [updateLocation, Store.updateOne, hid]
  refine ⟨fun d => rfl, ?_, ?_, ?_⟩
  · intro habs
    rw [h2, updateFirst_of_no_match id f.properties f.geometry s.docs habs]
  · intro l1 d l2 hdecomp hd hl1
    rw [h2, hdecomp, updateFirst_first_match id f.properties f.geometry l1 d l2 hd hl1]
  · rw [h2]
    exact updateFirst_map_id_type id f.properties f.geometry s.docs

/-- C6 witness: the matched stored record with id 1 is replaced exactly by
its applySet image; a store whose only record has id 2 is unchanged. -/
theorem update_sets_only_properties_geometry_witness :
    applySet (featureEx 0 "X").properties (featureEx 0 "X").geometry (featureEx 1 "Feature") =
      ⟨(featureEx 1 "Feature").id, (featureEx 1 "Feature").type,
        (featureEx 0 "X").properties, (featureEx 0 "X").geometry⟩ ∧
    ((updateLocation ⟨"PUT", "000000000000000000000001", Except.ok (featureEx 0 "X")⟩ []
        ⟨[featureEx 2 "Feature"], 3⟩).2).docs = [featureEx 2 "Feature"] ∧
    ((updateLocation ⟨"PUT", "000000000000000000000001", Except.ok (featureEx 0 "X")⟩ []
        ⟨[featureEx 1 "Feature"], 2⟩).2).docs =
      [] ++ applySet (featureEx 0 "X").properties (featureEx 0 "X").geometry
        (featureEx 1 "Feature") :: [] ∧
    ((updateLocation ⟨"PUT", "000000000000000000000001", Except.ok (featureEx 0 "X")⟩ []
        ⟨[featureEx 1 "Feature"], 2⟩).2).docs.map (fun d => (d.id, d.type)) =
      [featureEx 1 "Feature"].map (fun d => (d.id, d.type)) :=
  ⟨(update_sets_only_properties_geometry "PUT" "000000000000000000000001" (featureEx 0 "X")
      [] ⟨[featureEx 1 "Feature"], 2⟩ 1 (by decide)).1 (featureEx 1 "Feature"),
   (update_sets_only_properties_geometry "PUT" "000000000000000000000001" (featureEx 0 "X")
      [] ⟨[featureEx 2 "Feature"], 3⟩ 1 (by decide)).2.1 (by decide),
   (update_sets_only_properties_geometry "PUT" "000000000000000000000001" (featureEx 0 "X")
      [] ⟨[featureEx 1 "Feature"], 2⟩ 1 (by decide)).2.2.1 [] (featureEx 1 "Feature") []
      rfl rfl (by simp),
   (update_sets_only_properties_geometry "PUT" "000000000000000000000001" (featureEx 0 "X")
      [] ⟨[featureEx 1 "Feature"], 2⟩ 1 (by decide)).2.2.2⟩

/-- C10: the 200 body of Update is the decoded request body echoed back,
not the stored record: it carries the client-submitted `type` (Update
never forces it to `Feature`) and the client-submitted id as its hex
string, while the stored records keep their original ids and types. -/
theorem update_echoes_submitted_feature (m idp : String) (f : LocationFeature)
    (h0 : HeaderMap) (s : Store) (id : ObjectID)
    (hid : objectIDFromHex idp = some id) :
    (updateLocation ⟨m, idp, Except.ok f⟩ h0 s).1.status = 200 ∧
    (updateLocation ⟨m, idp, Except.ok f⟩ h0 s).1.body =
      Body.json (encodeLocationFeature f) ∧
    (encodeLocationFeature f).objField "type" = some (.str f.type) ∧
    (encodeLocationFeature f).objField "id" = some (.str (oidHex f.id)) ∧
    ((updateLocation ⟨m, idp, Except.ok f⟩ h0 s).2).docs.map (fun d => (d.id, d.type)) =
      s.docs.map (fun d => (d.id, d.type)) := by
  refine ⟨?_, ?_, rfl, rfl, ?_⟩
  · simp [updateLocation, hid]
  · simp [updateLocation, hid]
  · simp [updateLocation, Store.updateOne, hid, updateFirst_map_id_type]

/-- C10 witness: a body submitting type X and the zero id against a store
holding the record with id 1 and type Feature. -/
theorem update_echoes_submitted_feature_witness :
    (updateLocation ⟨"PUT", "000000000000000000000001", Except.ok (featureEx 0 "X")⟩ []
        ⟨[featureEx 1 "Feature"], 2⟩).1.status = 200 ∧
    (updateLocation ⟨"PUT", "000000000000000000000001", Except.ok (featureEx 0 "X")⟩ []
        ⟨[featureEx 1 "Feature"], 2⟩).1.body =
      Body.json (encodeLocationFeature (featureEx 0 "X")) ∧
    (encodeLocationFeature (featureEx 0 "X")).objField "type" =
      some (.str (featureEx 0 "X").type) ∧
    (encodeLocationFeature (featureEx 0 "X")).objField "id" =
      some (.str (oidHex (featureEx 0 "X").id)) ∧
    ((updateLocation ⟨"PUT", "000000000000000000000001", Except.ok (featureEx 0 "X")⟩ []
        ⟨[featureEx 1 "Feature"], 2⟩).2).docs.map (fun d => (d.id, d.type)) =
      ([featureEx 1 "Feature"] : List LocationFeature).map (fun d => (d.id, d.type)) :=
  update_echoes_submitted_feature "PUT" "000000000000000000000001" (featureEx 0 "X") []
    ⟨[featureEx 1 "Feature"], 2⟩ 1 (by decide)

/-- C5: with a valid id, Delete responds 404 with body `Location not
found` exactly when the store delete removed zero records, and 200 with
the fixed confirmation object when it removed one; in a store with
pairwise distinct ids, deleting an existing id twice yields 200 then
404. -/
theorem delete_404_iff_zero_deleted (m idp : String) (b : Except String LocationFeature)
    (h0 : HeaderMap) (s : Store) (id : ObjectID)
    (hid : objectIDFromHex idp = some id)
    (huniq : s.docs.Pairwise (fun a b2 => a.id ≠ b2.id)) :
    ((deleteLocation ⟨m, idp, b⟩ h0 s).1.status = 404 ↔ (s.deleteOne id).1 = 0) ∧
    ((s.deleteOne id).1 = 0 →
      (deleteLocation ⟨m, idp, b⟩ h0 s).1.body = Body.text "Location not found\n") ∧
    ((s.deleteOne id).1 ≠ 0 →
      (deleteLocation ⟨m, idp, b⟩ h0 s).1.status = 200 ∧
      (deleteLocation ⟨m, idp, b⟩ h0 s).1.body =
        Body.json (.obj [("message", .str "Location deleted successfully")])) ∧
    ((∃ d ∈ s.docs, d.id = id) →
      (deleteLocation ⟨m, idp, b⟩ h0 s).1.status = 200 ∧
      (deleteLocation ⟨m, idp, b⟩ h0 (deleteLocation ⟨m, idp, b⟩ h0 s).2).1.status = 404) := by
  by_cases hz : (deleteFirst id s.docs).1 = 0
  · refine ⟨?_, ?_, ?_, ?_⟩
    · simp [deleteLocation, Store.deleteOne, hid, hz, httpError]
    · intro _
      simp [deleteLocation, Store.deleteOne, hid, hz, httpError]
    · intro hnz
      exact absurd hz hnz
    · rintro ⟨d, hd, hdid⟩
      exact absurd hdid ((deleteFirst_fst_eq_zero_iff id s.docs).mp hz d hd)
  · have h200 : (deleteLocation ⟨m, idp, b⟩ h0 s).1.status = 200 := by
      simp [deleteLocation, Store.deleteOne, hid, hz]
    have hs2 : (deleteLocation ⟨m, idp, b⟩ h0 s).2 =
        ⟨(deleteFirst id s.docs).2, s.nextId⟩ := by
      simp [deleteLocation, Store.deleteOne, hid, hz]
    refine ⟨?_, ?_, ?_, ?_⟩
    · rw [h200]
      exact iff_of_false (by decide) hz
    · intro hzz
      exact absurd hzz hz
    · intro _
      exact ⟨h200, by simp [deleteLocation, Store.deleteOne, hid, hz]⟩
    · intro _
      refine ⟨h200, ?_⟩
      rw [hs2]
      have hz2 : (deleteFirst id (deleteFirst id s.docs).2).1 = 0 :=
        (deleteFirst_fst_eq_zero_iff id _).mpr (deleteFirst_no_match id s.docs huniq)
      simp [deleteLocation, Store.deleteOne, hid, hz2, httpError]

/-- C5 witness: a store holding exactly the record with id 1; the first
delete of id 1 returns 200, the second 404. -/
theorem delete_404_iff_zero_deleted_witness :
    ((deleteLocation ⟨"DELETE", "000000000000000000000001", Except.error ""⟩ []
        ⟨[featureEx 1 "Feature"], 2⟩).1.status = 404 ↔
      (Store.deleteOne ⟨[featureEx 1 "Feature"], 2⟩ 1).1 = 0) ∧
    ((Store.deleteOne ⟨[featureEx 1 "Feature"], 2⟩ 1).1 = 0 →
      (deleteLocation ⟨"DELETE", "000000000000000000000001", Except.error ""⟩ []
        ⟨[featureEx 1 "Feature"], 2⟩).1.body = Body.text "Location not found\n") ∧
    ((Store.deleteOne ⟨[featureEx 1 "Feature"], 2⟩ 1).1 ≠ 0 →
      (deleteLocation ⟨"DELETE", "000000000000000000000001", Except.error ""⟩ []
        ⟨[featureEx 1 "Feature"], 2⟩).1.status = 200 ∧
      (deleteLocation ⟨"DELETE", "000000000000000000000001", Except.error ""⟩ []
        ⟨[featureEx 1 "Feature"], 2⟩).1.body =
        Body.json (.obj [("message", .str "Location deleted successfully")])) ∧
    ((∃ d ∈ ([featureEx 1 "Feature"] : List LocationFeature), d.id = 1) →
      (deleteLocation ⟨"DELETE", "000000000000000000000001", Except.error ""⟩ []
        ⟨[featureEx 1 "Feature"], 2⟩).1.status = 200 ∧
      (deleteLocation ⟨"DELETE", "000000000000000000000001", Except.error ""⟩ []
        (deleteLocation ⟨"DELETE", "000000000000000000000001", Except.error ""⟩ []
          ⟨[featureEx 1 "Feature"], 2⟩).2).1.status = 404) :=
  delete_404_iff_zero_deleted "DELETE" "000000000000000000000001" (Except.error "") []
    ⟨[featureEx 1 "Feature"], 2⟩ 1 (by decide) (by simp)

/-- C7: on an OPTIONS request the middleware sets the three CORS headers,
responds 200 with an empty body, leaves the store untouched, and never
invokes the wrapped handler (the result does not depend on it). -/
theorem options_preflight_short_circuit (next : Handler) (r : Request)
    (h0 : HeaderMap) (s : Store) (hm : r.method = "OPTIONS") :
    corsMiddleware next r h0 s =
      (⟨200,
        setHeader (setHeader (setHeader h0 "Access-Control-Allow-Origin" "*")
          "Access-Control-Allow-Methods" "GET, POST, PUT, DELETE, OPTIONS")
          "Access-Control-Allow-Headers" "Content-Type, Authorization, X-Requested-With",
        Body.empty⟩, s) ∧
    getHeader (corsMiddleware next r h0 s).1.headers "Access-Control-Allow-Origin" =
      some "*" ∧
    getHeader (corsMiddleware next r h0 s).1.headers "Access-Control-Allow-Methods" =
      some "GET, POST, PUT, DELETE, OPTIONS" ∧
    getHeader (corsMiddleware next r h0 s).1.headers "Access-Control-Allow-Headers" =
      some "Content-Type, Authorization, X-Requested-With" := by
  have he : corsMiddleware next r h0 s =
      (⟨200,
        setHeader (setHeader (setHeader h0 "Access-Control-Allow-Origin" "*")
          "Access-Control-Allow-Methods" "GET, POST, PUT, DELETE, OPTIONS")
          "Access-Control-Allow-Headers" "Content-Type, Authorization, X-Requested-With",
        Body.empty⟩, s) := by
    simp [corsMiddleware, hm]
  refine ⟨he, ?_, ?_, ?_⟩ <;> rw [he]
  · rw [getHeader_setHeader_of_ne _ _ _ _ (by decide),
      getHeader_setHeader_of_ne _ _ _ _ (by decide)]
    exact getHeader_setHeader_self h0 "Access-Control-Allow-Origin" "*"
  · rw [getHeader_setHeader_of_ne _ _ _ _ (by decide)]
    exact getHeader_setHeader_self _ "Access-Control-Allow-Methods" _
  · exact getHeader_setHeader_self _ "Access-Control-Allow-Headers" _

/-- C7 witness: an OPTIONS request over the Create handler on an empty
store. -/
theorem options_preflight_short_circuit_witness :
    corsMiddleware createLocation ⟨"OPTIONS", "", Except.error ""⟩ [] ⟨[], 1⟩ =
      (⟨200,
        setHeader (setHeader (setHeader [] "Access-Control-Allow-Origin" "*")
          "Access-Control-Allow-Methods" "GET, POST, PUT, DELETE, OPTIONS")
          "Access-Control-Allow-Headers" "Content-Type, Authorization, X-Requested-With",
        Body.empty⟩, (⟨[], 1⟩ : Store)) ∧
    getHeader (corsMiddleware createLocation ⟨"OPTIONS", "", Except.error ""⟩ []
        ⟨[], 1⟩).1.headers "Access-Control-Allow-Origin" = some "*" ∧
    getHeader (corsMiddleware createLocation ⟨"OPTIONS", "", Except.error ""⟩ []
        ⟨[], 1⟩).1.headers "Access-Control-Allow-Methods" =
      some "GET, POST, PUT, DELETE, OPTIONS" ∧
    getHeader (corsMiddleware createLocation ⟨"OPTIONS", "", Except.error ""⟩ []
        ⟨[], 1⟩).1.headers "Access-Control-Allow-Headers" =
      some "Content-Type, Authorization, X-Requested-With" :=
  options_preflight_short_circuit createLocation ⟨"OPTIONS", "", Except.error ""⟩ [] ⟨[], 1⟩ rfl

/-- C9 counterexample: not every response carries Content-Type
application/json.  The OPTIONS preflight response carries no Content-Type
at all, and a 404 from Delete carries text/plain (set by the Go standard
library error writer over the application/json value set earlier). -/
theorem preflight_and_error_content_type_cex :
    getHeader (corsMiddleware createLocation ⟨"OPTIONS", "", Except.error ""⟩ []
        ⟨[], 1⟩).1.headers "Content-Type" = none ∧
    (deleteLocation ⟨"DELETE", "000000000000000000000001", Except.error ""⟩ []
        ⟨[], 1⟩).1.status = 404 ∧
    getHeader (deleteLocation ⟨"DELETE", "000000000000000000000001", Except.error ""⟩ []
        ⟨[], 1⟩).1.headers "Content-Type" = some "text/plain; charset=utf-8" := by
  refine ⟨by decide, by decide, by decide⟩

/-- C9 amended: Content-Type depends on the response class.  The four
handlers set application/json and their 200 JSON-encoded responses keep
it; every response written through the error writer (bad body on Create
and Update, bad id on Update and Delete, not-found on Delete) carries
text/plain with charset utf-8 instead; OPTIONS preflight responses carry
no Content-Type. -/
theorem content_type_by_response_class :
    (∀ (m i : String) (f : LocationFeature) (h0 : HeaderMap) (s : Store),
      getHeader (createLocation ⟨m, i, Except.ok f⟩ h0 s).1.headers "Content-Type" =
        some "application/json") ∧
    (∀ (m i e : String) (h0 : HeaderMap) (s : Store),
      getHeader (createLocation ⟨m, i, Except.error e⟩ h0 s).1.headers "Content-Type" =
        some "text/plain; charset=utf-8") ∧
    (∀ (r : Request) (h0 : HeaderMap) (s : Store),
      getHeader (getLocations r h0 s).1.headers "Content-Type" = some "application/json") ∧
    (∀ (m idp : String) (f : LocationFeature) (h0 : HeaderMap) (s : Store) (id : ObjectID),
      objectIDFromHex idp = some id →
      getHeader (updateLocation ⟨m, idp, Except.ok f⟩ h0 s).1.headers "Content-Type" =
        some "application/json") ∧
    (∀ (m idp : String) (b : Except String LocationFeature) (h0 : HeaderMap) (s : Store),
      objectIDFromHex idp = none →
      getHeader (updateLocation ⟨m, idp, b⟩ h0 s).1.headers "Content-Type" =
        some "text/plain; charset=utf-8") ∧
    (∀ (m idp e : String) (h0 : HeaderMap) (s : Store) (id : ObjectID),
      objectIDFromHex idp = some id →
      getHeader (updateLocation ⟨m, idp, Except.error e⟩ h0 s).1.headers "Content-Type" =
        some "text/plain; charset=utf-8") ∧
    (∀ (m idp : String) (b : Except String LocationFeature) (h0 : HeaderMap) (s : Store)
        (id : ObjectID),
      objectIDFromHex idp = some id →
      getHeader (deleteLocation ⟨m, idp, b⟩ h0 s).1.headers "Content-Type" =
        ite ((s.deleteOne id).1 = 0) (some "text/plain; charset=utf-8")
          (some "application/json")) ∧
    (∀ (m idp : String) (b : Except String LocationFeature) (h0 : HeaderMap) (s : Store),
      objectIDFromHex idp = none →
      getHeader (deleteLocation ⟨m, idp, b⟩ h0 s).1.headers "Content-Type" =
        some "text/plain; charset=utf-8") ∧
    (∀ (next : Handler) (i : String) (b : Except String LocationFeature) (s : Store),
      getHeader (corsMiddleware next ⟨"OPTIONS", i, b⟩ [] s).1.headers "Content-Type" =
        none) := by
  have hct : ∀ (h0 : HeaderMap),
      getHeader (setHeader (setHeader (setHeader h0 "Content-Type" "application/json")
          "Content-Type" "text/plain; charset=utf-8") "X-Content-Type-Options" "nosniff")
        "Content-Type" = some "text/plain; charset=utf-8" := by
    intro h0
    rw [getHeader_setHeader_of_ne _ _ _ _ (by decide)]
    exact getHeader_setHeader_self _ _ _
  refine ⟨?_, ?_, ?_, ?_, ?_, ?_, ?_, ?_, ?_⟩
  · intro m i f h0 s
    exact getHeader_setHeader_self h0 "Content-Type" "application/json"
  · intro m i e h0 s
    exact hct h0
  · intro r h0 s
    exact getHeader_setHeader_self h0 "Content-Type" "application/json"
  · intro m idp f h0 s id hid
    simp only [updateLocation, hid]
    exact getHeader_setHeader_self h0 "Content-Type" "application/json"
  · intro m idp b h0 s hid
    simp only [updateLocation, hid, httpError]
    exact hct h0
  · intro m idp e h0 s id hid
    simp only [updateLocation, hid, httpError]
    exact hct h0
  · intro m idp b h0 s id hid
    by_cases hz : (s.deleteOne id).1 = 0
    · simp only [deleteLocation, hid, httpError, hz, if_pos, ite_true]
      exact hct h0
    · simp only [deleteLocation, hid, hz, if_neg, ite_false]
      exact getHeader_setHeader_self h0 "Content-Type" "application/json"
  · intro m idp b h0 s hid
    simp only [deleteLocation, hid, httpError]
    exact hct h0
  · intro next i b s
    simp only [corsMiddleware, if_true]
    rw [getHeader_setHeader_of_ne _ _ _ _ (by decide),
      getHeader_setHeader_of_ne _ _ _ _ (by decide),
      getHeader_setHeader_of_ne _ _ _ _ (by decide)]
    rfl

/-- C9 amended witness: one concrete request per response class. -/
theorem content_type_by_response_class_witness :
    getHeader (createLocation ⟨"POST", "", Except.ok (featureEx 0 "T")⟩ []
        ⟨[], 1⟩).1.headers "Content-Type" = some "application/json" ∧
    getHeader (createLocation ⟨"POST", "", Except.error "bad"⟩ []
        ⟨[], 1⟩).1.headers "Content-Type" = some "text/plain; charset=utf-8" ∧
    getHeader (getLocations ⟨"GET", "", Except.error ""⟩ [] ⟨[], 1⟩).1.headers
      "Content-Type" = some "application/json" ∧
    getHeader (updateLocation ⟨"PUT", "000000000000000000000001",
        Except.ok (featureEx 0 "T")⟩ [] ⟨[], 1⟩).1.headers "Content-Type" =
      some "application/json" ∧
    getHeader (updateLocation ⟨"PUT", "zz", Except.error "bad"⟩ []
        ⟨[], 1⟩).1.headers "Content-Type" = some "text/plain; charset=utf-8" ∧
    getHeader (updateLocation ⟨"PUT", "000000000000000000000001", Except.error "bad"⟩ []
        ⟨[], 1⟩).1.headers "Content-Type" = some "text/plain; charset=utf-8" ∧
    getHeader (deleteLocation ⟨"DELETE", "000000000000000000000001", Except.error ""⟩ []
        ⟨[], 1⟩).1.headers "Content-Type" =
      ite ((Store.deleteOne ⟨[], 1⟩ 1).1 = 0) (some "text/plain; charset=utf-8")
        (some "application/json") ∧
    getHeader (deleteLocation ⟨"DELETE", "zz", Except.error ""⟩ []
        ⟨[], 1⟩).1.headers "Content-Type" = some "text/plain; charset=utf-8" ∧
    getHeader (corsMiddleware getLocations ⟨"OPTIONS", "", Except.error ""⟩ []
        ⟨[], 1⟩).1.headers "Content-Type" = none :=
  ⟨content_type_by_response_class.1 "POST" "" (featureEx 0 "T") [] ⟨[], 1⟩,
    content_type_by_response_class.2.1 "POST" "" "bad" [] ⟨[], 1⟩,
    content_type_by_response_class.2.2.1 ⟨"GET", "", Except.error ""⟩ [] ⟨[], 1⟩,
    content_type_by_response_class.2.2.2.1 "PUT" "000000000000000000000001"
      (featureEx 0 "T") [] ⟨[], 1⟩ 1 (by decide),
    content_type_by_response_class.2.2.2.2.1 "PUT" "zz" (Except.error "bad") [] ⟨[], 1⟩
      (by decide),
    content_type_by_response_class.2.2.2.2.2.1 "PUT" "000000000000000000000001" "bad" []
      ⟨[], 1⟩ 1 (by decide),
    content_type_by_response_class.2.2.2.2.2.2.1 "DELETE" "000000000000000000000001"
      (Except.error "") [] ⟨[], 1⟩ 1 (by decide),
    content_type_by_response_class.2.2.2.2.2.2.2.1 "DELETE" "zz" (Except.error "") []
      ⟨[], 1⟩ (by decide),
    content_type_by_response_class.2.2.2.2.2.2.2.2 getLocations "" (Except.error "")
      ⟨[], 1⟩⟩

end Api
